import Mathlib

/-!
Shallow embedding of the vapebar-inventory sale-transaction core.

The definitions below are translated from `src/server.js` (the
`/api/sheets/recordSale` handler, single-item and bulk branches) and from
the client code in `src/unnamed/part_002` (`markLoanAsPaid`,
`WarrantyManager.processClaim`, `InventoryManager.updateQuantity`,
`InventoryManager.getItemById`).

Modelling conventions:
- Spreadsheet state is a `Store` of typed row lists; a data row at list
  index `j` corresponds to sheet row `j + 2` (header + 1-based).
- A numeric cell or request field that JavaScript would `parseInt` /
  `parseFloat` is modelled by its parse result: `Option Int` / `Option ℚ`
  with `none` playing the role of `NaN`.
- A request field is a `QtyField` / `PriceField` recording the value's
  JavaScript truthiness together with its parse result, so that the
  source's `x || y` fallbacks and `parseInt(x || 0)` idioms translate
  exactly.
- Time-derived values (`Date.now()` identifiers, today's date) are
  explicit parameters.
- Monetary arithmetic is idealised over ℚ; `toFixed(2)` becomes `round2`.
-/

/-- A JavaScript request field parsed with `parseInt`: absent (`undef`),
or a value carrying its JS truthiness and its `parseInt` result
(`none` = `NaN`). -/
inductive QtyField where
  | undef : QtyField
  | val (truthy : Bool) (parsed : Option Int) : QtyField
deriving DecidableEq

/-- A JavaScript request field parsed with `parseFloat`: absent (`undef`),
or a value carrying its JS truthiness and its `parseFloat` result
(`none` = `NaN`). -/
inductive PriceField where
  | undef : PriceField
  | val (truthy : Bool) (parsed : Option ℚ) : PriceField
deriving DecidableEq

/-- `parseInt(x || 0)`: a falsy field falls back to `parseInt(0) = 0`. -/
def QtyField.jsParse : QtyField → Option Int
  | .undef => some 0
  | .val t p => if t then p else some 0

/-- `parseInt(x) || 0`: a `NaN` parse result falls back to `0`. -/
def QtyField.jsParseOrZero : QtyField → Int
  | .undef => 0
  | .val _ p => p.getD 0

/-- JS truthiness of a price field. -/
def PriceField.truthy : PriceField → Bool
  | .undef => false
  | .val t _ => t

/-- `parseFloat(x) || 0` applied to a chosen field. -/
def PriceField.jsParseOrZero : PriceField → ℚ
  | .undef => 0
  | .val _ p => p.getD 0

/-- `parseFloat(x || 0) || 0` (bulk branch applied price). -/
def PriceField.jsParseFalsyZero (f : PriceField) : ℚ :=
  if f.truthy then f.jsParseOrZero else 0

/-- JS `>` on possibly-NaN integers: any comparison with NaN is false. -/
def jsGt : Option Int → Option Int → Bool
  | some a, some b => a > b
  | _, _ => false

/-- JS subtraction on possibly-NaN integers: NaN propagates. -/
def jsSub : Option Int → Option Int → Option Int
  | some a, some b => some (a - b)
  | _, _ => none

/-- JS `s || d` for an optional string field: absent or empty falls back. -/
def jsStrOr (o : Option String) (d : String) : String :=
  match o with
  | none => d
  | some s => if s = "" then d else s

/-- Rounding to 2 decimal places, the idealisation of `toFixed(2)`. -/
def round2 (q : ℚ) : ℚ := ((⌊q * 100 + 1/2⌋ : ℤ) : ℚ) / 100

/-- One data row of the Inventory sheet: ID, Category, Item Name, Version,
Flavor, Quantity, Price, Date Added, Notes, Cost.  The quantity cell is
kept as its `parseInt(cell || '0')` result (`none` = non-numeric cell);
the price cell as its numeric-or-zero value. -/
structure InvRow where
  id : String
  category : String
  itemName : String
  version : String
  flavor : String
  qty : Option Int
  price : ℚ
  dateAdded : String
  notes : String
  cost : String
deriving DecidableEq

/-- One data row of the Sales sheet. -/
structure SaleRow where
  saleId : String
  itemId : String
  itemName : String
  category : String
  quantitySold : Option Int
  pricePerUnit : ℚ
  total : Option ℚ
  date : String
  customer : String
  saleType : String
  paymentMethod : String
  notes : String
deriving DecidableEq

/-- One data row of the Loans sheet. -/
structure LoanRow where
  loanId : String
  saleId : String
  customer : String
  itemName : String
  amount : Option ℚ
  dateIssued : String
  dueDate : String
  status : String
  datePaid : String
  notes : String
deriving DecidableEq

/-- One data row of the Warranty sheet. -/
structure WarrantyRow where
  claimId : String
  date : String
  productId : String
  productName : String
  quantity : Int
  reason : String
  customer : String
  notes : String
  status : String
deriving DecidableEq

/-- The external spreadsheet store: the four tables' data rows. -/
structure Store where
  inventory : List InvRow
  sales : List SaleRow
  loans : List LoanRow
  warranty : List WarrantyRow
deriving DecidableEq

/-- One `{itemId, qty}` line of a bulk sale request. -/
structure BulkLine where
  itemId : String
  qty : QtyField
deriving DecidableEq

/-- A sale request, as received by the `recordSale` handler.  Absent
JSON fields are `none` / `undef` / `[]`. -/
structure SaleReq where
  itemId : Option String
  bulkItems : List BulkLine
  quantitySold : QtyField
  appliedPrice : PriceField
  pricePerUnit : PriceField
  paymentMethod : Option String
  customer : Option String
  date : Option String
  saleType : Option String
  notes : Option String
deriving DecidableEq

/-- A warranty claim request (`claimData`). -/
structure ClaimReq where
  itemId : String
  date : String
  quantity : QtyField
  reason : String
  customer : Option String
  notes : Option String
deriving DecidableEq

/-- Error kinds surfaced by the handlers (each a thrown `Error` in JS). -/
inductive SaleErr where
  | validation
  | itemNotFound
  | insufficientStock
deriving DecidableEq

/-- Outcome of `recordSale`: the single-item branch responds with
`{saleId, newQuantity}`, the bulk branch with `{saleId}` only. -/
inductive SaleOutcome where
  | ok (saleId : String) (newQuantity : Option (Option Int))
  | err (e : SaleErr)
deriving DecidableEq

/-- Outcome of `processClaim`. -/
inductive ClaimOutcome where
  | ok (claimId : String)
  | err (e : SaleErr)
deriving DecidableEq

/-- The server-side item search over the freshly loaded inventory values:
first data row whose ID cell is truthy (non-empty) and equals the target
(`values[i][0] && String(values[i][0]) === String(itemId)`), together
with its data-row index. -/
def findInvRow : List InvRow → String → Option (Nat × InvRow)
  | [], _ => none
  | r :: rs, iid =>
    if r.id ≠ "" ∧ r.id = iid then some (0, r)
    else (findInvRow rs iid).map (fun p => (p.1 + 1, p.2))

/-- Overwrite the quantity cell of the data row at index `j`
(the `Inventory!F(rowNumber)` single-cell write). -/
def setQtyAt : List InvRow → Nat → Option Int → List InvRow
  | [], _, _ => []
  | r :: rs, 0, q => { r with qty := q } :: rs
  | r :: rs, n + 1, q => r :: setQtyAt rs n q

/-- Applied-price selection of the single-item branch:
`parseFloat(sale.appliedPrice || sale.pricePerUnit || itemRow[6] || 0) || 0`.
`itemPrice` is the item's price cell as a numeric-or-zero value (a falsy
or unparseable cell contributes `0` either way). -/
def appliedPriceOf (ap pp : PriceField) (itemPrice : ℚ) : ℚ :=
  if ap.truthy then ap.jsParseOrZero
  else if pp.truthy then pp.jsParseOrZero
  else itemPrice

/-- The SaleRecord row built by the single-item branch. -/
def singleSaleRow (nowId today : String) (sale : SaleReq)
    (itemRow : InvRow) : SaleRow :=
  { saleId := nowId, itemId := sale.itemId.getD "",
    itemName := itemRow.itemName, category := itemRow.category,
    quantitySold := sale.quantitySold.jsParse,
    pricePerUnit := appliedPriceOf sale.appliedPrice sale.pricePerUnit itemRow.price,
    total := sale.quantitySold.jsParse.map (fun n =>
      round2 (appliedPriceOf sale.appliedPrice sale.pricePerUnit itemRow.price * n)),
    date := jsStrOr sale.date today,
    customer := jsStrOr sale.customer "",
    saleType := jsStrOr sale.saleType "retail",
    paymentMethod := jsStrOr sale.paymentMethod "Cash",
    notes := jsStrOr sale.notes "" }

/-- The LoanRecord row built by the single-item branch when the payment
method is `Loan`. -/
def singleLoanRow (nowId today : String) (sale : SaleReq)
    (itemRow : InvRow) : LoanRow :=
  { loanId := "LOAN-" ++ nowId, saleId := nowId,
    customer := jsStrOr sale.customer "Unknown Customer",
    itemName := itemRow.itemName,
    amount := (singleSaleRow nowId today sale itemRow).total,
    dateIssued := jsStrOr sale.date today, dueDate := "",
    status := "Unpaid", datePaid := "", notes := jsStrOr sale.notes "" }

/-- The single-item branch of the `recordSale` handler
(`src/server.js` lines 354–452).  `nowId` is `Date.now().toString()`,
`today` the current ISO date. -/
def recordSaleSingle (nowId today : String) (sale : SaleReq) (st : Store) :
    Store × SaleOutcome :=
  if jsStrOr sale.itemId "" = "" then (st, .err .validation)
  else
    match findInvRow st.inventory (sale.itemId.getD "") with
    | none => (st, .err .itemNotFound)
    | some (j, itemRow) =>
      let existingQty := itemRow.qty
      match sale.quantitySold.jsParse with
      | none => (st, .err .validation)
      | some sellQty =>
        if sellQty ≤ 0 then (st, .err .validation)
        else if jsGt (some sellQty) existingQty then (st, .err .insufficientStock)
        else
          let newQty := jsSub existingQty (some sellQty)
          let st1 := { st with
            sales := st.sales ++ [singleSaleRow nowId today sale itemRow] }
          let st2 :=
            if jsStrOr sale.paymentMethod "Cash" = "Loan" then
              { st1 with loans := st1.loans ++
                  [singleLoanRow nowId today sale itemRow] }
            else st1
          ({ st2 with inventory := setQtyAt st2.inventory j newQty },
           .ok nowId (some newQty))

/-- The bulk branch's per-item inventory loop (`src/server.js` lines
310–350): skip not-found lines, abort on insufficient stock, otherwise
write the decremented quantity and continue on the updated snapshot. -/
def bulkLoop : List BulkLine → List InvRow → List InvRow × Option SaleErr
  | [], inv => (inv, none)
  | line :: rest, inv =>
    match findInvRow inv line.itemId with
    | none => bulkLoop rest inv
    | some (j, itemRow) =>
      let qtyToDeduct := line.qty.jsParse
      if jsGt qtyToDeduct itemRow.qty then (inv, some .insufficientStock)
      else bulkLoop rest (setQtyAt inv j (jsSub itemRow.qty qtyToDeduct))

/-- The SaleRecord row built by the bulk branch for the whole
transaction (`BULK` sentinel item identifier, synthesized label). -/
def bulkSaleRow (nowId today : String) (sale : SaleReq) : SaleRow :=
  { saleId := nowId, itemId := "BULK",
    itemName := "Bulk Sale (" ++ toString sale.bulkItems.length ++ " flavors)",
    category := "Bulk", quantitySold := sale.quantitySold.jsParse,
    pricePerUnit := sale.appliedPrice.jsParseFalsyZero,
    total := sale.quantitySold.jsParse.map (fun n =>
      round2 (sale.appliedPrice.jsParseFalsyZero * n)),
    date := jsStrOr sale.date today,
    customer := jsStrOr sale.customer "",
    saleType := jsStrOr sale.saleType "bulk",
    paymentMethod := jsStrOr sale.paymentMethod "Cash",
    notes := jsStrOr sale.notes "" }

/-- The LoanRecord row built by the bulk branch when the payment method
is `Loan`. -/
def bulkLoanRow (nowId today : String) (sale : SaleReq) : LoanRow :=
  { loanId := "LOAN-" ++ nowId, saleId := nowId,
    customer := jsStrOr sale.customer "Unknown Customer",
    itemName := "Bulk Sale (" ++ toString sale.bulkItems.length ++ " flavors)",
    amount := (bulkSaleRow nowId today sale).total,
    dateIssued := jsStrOr sale.date today, dueDate := "",
    status := "Unpaid", datePaid := "", notes := jsStrOr sale.notes "" }

/-- The bulk branch of the `recordSale` handler (`src/server.js` lines
261–353): one sale row (and one loan row when the payment method is
`Loan`) appended before the inventory loop runs. -/
def recordSaleBulk (nowId today : String) (sale : SaleReq) (st : Store) :
    Store × SaleOutcome :=
  let st1 := { st with sales := st.sales ++ [bulkSaleRow nowId today sale] }
  let st2 :=
    if sale.paymentMethod = some "Loan" then
      { st1 with loans := st1.loans ++ [bulkLoanRow nowId today sale] }
    else st1
  let res := bulkLoop sale.bulkItems st2.inventory
  ({ st2 with inventory := res.1 },
   match res.2 with
   | none => .ok nowId none
   | some e => .err e)

/-- The `/api/sheets/recordSale` handler: bulk branch when `bulkItems`
is non-empty, single-item branch otherwise. -/
def recordSale (nowId today : String) (sale : SaleReq) (st : Store) :
    Store × SaleOutcome :=
  if sale.bulkItems ≠ [] then recordSaleBulk nowId today sale st
  else recordSaleSingle nowId today sale st

/-- The loan search of `markLoanAsPaid` (`loans[i][0] === loanId`). -/
def findLoan : List LoanRow → String → Option (Nat × LoanRow)
  | [], _ => none
  | r :: rs, lid =>
    if r.loanId = lid then some (0, r)
    else (findLoan rs lid).map (fun p => (p.1 + 1, p.2))

/-- The `Loans!H:I` row-span write: set status `Paid` and the date-paid
cell at data row `j`. -/
def setLoanPaidAt : List LoanRow → Nat → String → List LoanRow
  | [], _, _ => []
  | r :: rs, 0, d => { r with status := "Paid", datePaid := d } :: rs
  | r :: rs, n + 1, d => r :: setLoanPaidAt rs n d

/-- `markLoanAsPaid` (`src/unnamed/part_002` lines 1826–1864): locate the
loan by identifier, set status to `Paid` and date-paid to today, write the
status+date-paid span back.  Returns `false` when the loan is not found. -/
def markLoanAsPaid (today loanId : String) (st : Store) : Store × Bool :=
  match findLoan st.loans loanId with
  | none => (st, false)
  | some (j, _) => ({ st with loans := setLoanPaidAt st.loans j today }, true)

/-- `InventoryManager.getItemById`: first item whose ID equals the target
(strict `===`, no truthiness guard), with its index. -/
def getItemById : List InvRow → String → Option (Nat × InvRow)
  | [], _ => none
  | r :: rs, iid =>
    if r.id = iid then some (0, r)
    else (getItemById rs iid).map (fun p => (p.1 + 1, p.2))

/-- `InventoryManager.updateQuantity` (`src/unnamed/part_002` lines
189–211): re-find the item by ID and rewrite its row with the new
quantity, all other fields preserved; a missing item is a silent no-op. -/
def updateQuantity (itemId : String) (newQuantity : Int)
    (inv : List InvRow) : List InvRow :=
  match getItemById inv itemId with
  | none => inv
  | some (j, _) => setQtyAt inv j (some newQuantity)

/-- `WarrantyManager.processClaim` (`src/unnamed/part_002` lines
2093–2137): validate the product and stock, append a `Completed` claim
row, then decrement the product's quantity. -/
def processClaim (claimId : String) (c : ClaimReq) (st : Store) :
    Store × ClaimOutcome :=
  match getItemById st.inventory c.itemId with
  | none => (st, .err .itemNotFound)
  | some (_, product) =>
    let currentQty : Int := product.qty.getD 0
    let replaceQty : Int := c.quantity.jsParseOrZero
    if currentQty < replaceQty then (st, .err .insufficientStock)
    else
      let row : WarrantyRow :=
        { claimId := claimId, date := c.date, productId := c.itemId,
          productName := product.itemName, quantity := replaceQty,
          reason := c.reason, customer := jsStrOr c.customer "",
          notes := jsStrOr c.notes "", status := "Completed" }
      let st1 := { st with warranty := st.warranty ++ [row] }
      let newQuantity := currentQty - replaceQty
      ({ st1 with inventory := updateQuantity c.itemId newQuantity st1.inventory },
       .ok claimId)

/-! ### Helper lemmas -/

theorem jsGt_some_some (a b : Int) : jsGt (some a) (some b) = decide (a > b) := rfl

theorem jsSub_some_some (a b : Int) : jsSub (some a) (some b) = some (a - b) := rfl

/-- A quantity cell that is not a negative integer
(a NaN cell is not a negative quantity). -/
def qtyOk : Option Int → Bool
  | none => true
  | some n => decide (0 ≤ n)

/-- Executable non-negativity of every stored inventory quantity. -/
def invNonNeg : List InvRow → Bool
  | [] => true
  | r :: rs => qtyOk r.qty && invNonNeg rs

theorem qtyOk_iff (q : Option Int) :
    qtyOk q = true ↔ ∀ n, q = some n → 0 ≤ n := by
  cases q <;> simp [qtyOk]

theorem jsSub_nonneg (a b : Option Int) (h : jsGt a b = false) :
    ∀ n, jsSub b a = some n → 0 ≤ n := by
  intro n hn
  cases a <;> cases b <;> simp [jsSub] at hn
  simp [jsGt, decide_eq_false_iff_not] at h
  omega

theorem invNonNeg_setQtyAt (inv : List InvRow) (j : Nat) (q : Option Int)
    (h : invNonNeg inv = true) (hq : ∀ n, q = some n → 0 ≤ n) :
    invNonNeg (setQtyAt inv j q) = true := by
  induction inv generalizing j with
  | nil => exact h
  | cons r rs ih =>
    cases j with
    | zero =>
      simp only [invNonNeg, setQtyAt, Bool.and_eq_true] at h ⊢
      exact ⟨(qtyOk_iff q).mpr hq, h.2⟩
    | succ j =>
      simp only [invNonNeg, setQtyAt, Bool.and_eq_true] at h ⊢
      exact ⟨h.1, ih j h.2⟩

theorem bulkLoop_invNonNeg (lines : List BulkLine) (inv : List InvRow)
    (h : invNonNeg inv = true) : invNonNeg (bulkLoop lines inv).1 = true := by
  induction lines generalizing inv with
  | nil => exact h
  | cons line rest ih =>
    rw [bulkLoop]
    cases hf : findInvRow inv line.itemId with
    | none => exact ih inv h
    | some p =>
      obtain ⟨j, itemRow⟩ := p
      by_cases hg : jsGt line.qty.jsParse itemRow.qty = true
      · simpa [hg] using h
      · simp only [Bool.not_eq_true] at hg
        simp only [hg, Bool.false_eq_true, if_false]
        exact ih _ (invNonNeg_setQtyAt inv j _ h (jsSub_nonneg _ _ hg))

theorem bulkLoop_err_decomp (lines : List BulkLine) (inv inv2 : List InvRow)
    (e : SaleErr) (h : bulkLoop lines inv = (inv2, some e)) :
    e = .insufficientStock ∧
    ∃ pre line rest j itemRow,
      lines = pre ++ line :: rest ∧
      bulkLoop pre inv = (inv2, none) ∧
      findInvRow inv2 line.itemId = some (j, itemRow) ∧
      jsGt line.qty.jsParse itemRow.qty = true := by
  induction lines generalizing inv with
  | nil => simp [bulkLoop] at h
  | cons line rest ih =>
    rw [bulkLoop] at h
    cases hf : findInvRow inv line.itemId with
    | none =>
      rw [hf] at h
      obtain ⟨he, pre, l2, r2, j, row, hsplit, hpre, hfind, hgt⟩ := ih inv h
      exact ⟨he, line :: pre, l2, r2, j, row,
        by simp [hsplit], by rw [bulkLoop, hf]; exact hpre, hfind, hgt⟩
    | some p =>
      obtain ⟨j, itemRow⟩ := p
      rw [hf] at h
      by_cases hg : jsGt line.qty.jsParse itemRow.qty = true
      · simp only [hg, if_true] at h
        obtain ⟨h1, h2⟩ := Prod.mk.injEq .. ▸ h
        obtain rfl : inv = inv2 := h1
        obtain rfl : e = .insufficientStock := by
          cases h2; rfl
        exact ⟨rfl, [], line, rest, j, itemRow, rfl, rfl, hf, hg⟩
      · simp only [Bool.not_eq_true] at hg
        simp only [hg, Bool.false_eq_true, if_false] at h
        obtain ⟨he, pre, l2, r2, j2, row2, hsplit, hpre, hfind, hgt⟩ := ih _ h
        refine ⟨he, line :: pre, l2, r2, j2, row2, by simp [hsplit], ?_, hfind, hgt⟩
        rw [bulkLoop, hf]
        simp only [hg, Bool.false_eq_true, if_false]
        exact hpre

theorem findLoan_setLoanPaidAt (l : List LoanRow) (lid d : String)
    (j : Nat) (row : LoanRow) (h : findLoan l lid = some (j, row)) :
    findLoan (setLoanPaidAt l j d) lid
      = some (j, { row with status := "Paid", datePaid := d }) := by
  induction l generalizing j with
  | nil => simp [findLoan] at h
  | cons r rs ih =>
    rw [findLoan] at h
    by_cases hr : r.loanId = lid
    · simp only [hr, if_true, Option.some.injEq, Prod.mk.injEq] at h
      obtain ⟨hj, hrow⟩ := h
      subst hj
      subst hrow
      simp [setLoanPaidAt, findLoan, hr]
    · simp only [hr, if_false] at h
      cases hf : findLoan rs lid with
      | none => rw [hf] at h; simp at h
      | some p =>
        rw [hf] at h
        obtain ⟨j2, row2⟩ := p
        simp only [Option.map_some', Option.some.injEq, Prod.mk.injEq] at h
        obtain ⟨hj, hrow⟩ := h
        subst hj
        subst hrow
        rw [setLoanPaidAt, findLoan]
        simp only [hr, if_false]
        rw [ih j2 hf]
        rfl

theorem setLoanPaidAt_idem (l : List LoanRow) (j : Nat) (d : String) :
    setLoanPaidAt (setLoanPaidAt l j d) j d = setLoanPaidAt l j d := by
  induction l generalizing j with
  | nil => rfl
  | cons r rs ih =>
    cases j with
    | zero => rfl
    | succ j =>
      simp only [setLoanPaidAt]
      rw [ih j]

theorem updateQuantity_eq_setQtyAt (inv : List InvRow) (iid : String)
    (m : Int) (j : Nat) (row : InvRow)
    (h : getItemById inv iid = some (j, row)) :
    updateQuantity iid m inv = setQtyAt inv j (some m) := by
  rw [updateQuantity, h]

/-! ### Claim theorems -/

/-- Claim C1: for every single-item sale request whose item is found and
whose quantitySold is a positive integer with quantitySold ≤ existingQty,
the operation succeeds, the value written to the item's quantity cell is
existingQty - quantitySold, and the response carries the fresh sale
identifier together with newQuantity equal to that written value. -/
theorem recordSale_single_success
    (nowId today iid : String) (sale : SaleReq) (st : Store)
    (j : Nat) (itemRow : InvRow) (exQty n : Int)
    (hbulk : sale.bulkItems = [])
    (hid : sale.itemId = some iid) (hne : iid ≠ "")
    (hfind : findInvRow st.inventory iid = some (j, itemRow))
    (hqty : itemRow.qty = some exQty)
    (hsell : sale.quantitySold.jsParse = some n)
    (hpos : 0 < n) (hle : n ≤ exQty) :
    (recordSale nowId today sale st).1.inventory
        = setQtyAt st.inventory j (some (exQty - n)) ∧
    (recordSale nowId today sale st).2
        = SaleOutcome.ok nowId (some (some (exQty - n))) := by
  have hnpos : ¬ (n ≤ 0) := by omega
  have hngt : ¬ (n > exQty) := by omega
  simp only [recordSale, recordSaleSingle, hbulk, hid, Option.getD_some,
    hfind, hsell, hqty, jsGt_some_some, jsSub_some_some, jsStrOr, hne,
    ne_eq, not_true_eq_false, if_false, hnpos, decide_eq_true_eq, hngt,
    ite_self, apply_ite Store.inventory, ite_false, ite_true,
    not_false_eq_true]
  exact ⟨trivial, trivial⟩

/-- A concrete inventory item used by the concrete-input theorems. -/
def itemA : InvRow :=
  { id := "A", category := "Device", itemName := "Pod X", version := "",
    flavor := "", qty := some 5, price := 100, dateAdded := "", notes := "",
    cost := "" }

/-- A concrete one-item store used by the concrete-input theorems. -/
def storeA : Store :=
  { inventory := [itemA], sales := [], loans := [], warranty := [] }

def reqC1 : SaleReq :=
  { itemId := some "A", bulkItems := [], quantitySold := .val true (some 3),
    appliedPrice := .undef, pricePerUnit := .undef, paymentMethod := none,
    customer := none, date := none, saleType := none, notes := none }

/-- Witness for C1 at a concrete input: item A with quantity 5, selling 3. -/
theorem recordSale_single_success_witness :
    (reqC1.bulkItems = [] ∧ reqC1.itemId = some "A" ∧ "A" ≠ "" ∧
     findInvRow storeA.inventory "A" = some (0, itemA) ∧
     itemA.qty = some 5 ∧ reqC1.quantitySold.jsParse = some 3 ∧
     (0 : Int) < 3 ∧ (3 : Int) ≤ 5) ∧
    ((recordSale "101" "20260102" reqC1 storeA).1.inventory
        = setQtyAt storeA.inventory 0 (some (5 - 3)) ∧
     (recordSale "101" "20260102" reqC1 storeA).2
        = SaleOutcome.ok "101" (some (some (5 - 3)))) :=
  ⟨by decide,
   recordSale_single_success "101" "20260102" "A" reqC1 storeA 0 itemA 5 3
     rfl rfl (by decide) (by decide) rfl rfl (by decide) (by decide)⟩

def reqC2 : SaleReq :=
  { itemId := none,
    bulkItems := [{ itemId := "A", qty := .val true (some 10) }],
    quantitySold := .val true (some 10),
    appliedPrice := .val true (some 50), pricePerUnit := .undef,
    paymentMethod := none, customer := none, date := none, saleType := none,
    notes := none }

/-- Claim C2 counterexample: a bulk sale request with quantitySold = 10
greater than item A's existing quantity 5 raises InsufficientStockError,
yet a SaleRecord append IS produced (the Sales table grew), contradicting
the claim that no SaleRecord is produced for every such sale request. -/
theorem recordSale_insufficient_no_writes_counterexample :
    reqC2.quantitySold.jsParse = some 10 ∧ itemA.qty = some 5 ∧
    (recordSale "1" "d" reqC2 storeA).2 = .err .insufficientStock ∧
    (recordSale "1" "d" reqC2 storeA).1.sales.length = 1 ∧
    storeA.sales.length = 0 := by
  decide

/-- Claim C2 (amended): for every single-item sale request whose item is
found and whose quantitySold is a positive integer greater than the item's
existing quantity, the operation raises InsufficientStockError and the
store is unchanged (no SaleRecord, LoanRecord, or inventory write).  On
the bulk path the already-appended records are retained (see C7). -/
theorem recordSale_single_insufficient
    (nowId today iid : String) (sale : SaleReq) (st : Store)
    (j : Nat) (itemRow : InvRow) (exQty n : Int)
    (hbulk : sale.bulkItems = [])
    (hid : sale.itemId = some iid) (hne : iid ≠ "")
    (hfind : findInvRow st.inventory iid = some (j, itemRow))
    (hqty : itemRow.qty = some exQty)
    (hsell : sale.quantitySold.jsParse = some n)
    (hpos : 0 < n) (hgt : exQty < n) :
    recordSale nowId today sale st = (st, .err .insufficientStock) := by
  have hnpos : ¬ (n ≤ 0) := by omega
  have hgt2 : n > exQty := hgt
  simp only [recordSale, recordSaleSingle, hbulk, hid, Option.getD_some,
    hfind, hsell, hqty, jsGt_some_some, jsStrOr, hne, ne_eq,
    not_true_eq_false, if_false, hnpos, decide_eq_true_eq, hgt2,
    ite_true, ite_false, not_false_eq_true]

def reqC2s : SaleReq :=
  { itemId := some "A", bulkItems := [], quantitySold := .val true (some 9),
    appliedPrice := .undef, pricePerUnit := .undef, paymentMethod := none,
    customer := none, date := none, saleType := none, notes := none }

/-- Witness for the amended C2 at a concrete input: selling 9 of item A
with only 5 in stock. -/
theorem recordSale_single_insufficient_witness :
    (reqC2s.bulkItems = [] ∧ reqC2s.itemId = some "A" ∧ "A" ≠ "" ∧
     findInvRow storeA.inventory "A" = some (0, itemA) ∧
     itemA.qty = some 5 ∧ reqC2s.quantitySold.jsParse = some 9 ∧
     (0 : Int) < 9 ∧ (5 : Int) < 9) ∧
    recordSale "7" "d" reqC2s storeA = (storeA, .err .insufficientStock) :=
  ⟨by decide,
   recordSale_single_insufficient "7" "d" "A" reqC2s storeA 0 itemA 5 9
     rfl rfl (by decide) (by decide) rfl rfl (by decide) (by decide)⟩

def reqC10 : SaleReq :=
  { itemId := none,
    bulkItems := [{ itemId := "A", qty := .val true (some (-3)) }],
    quantitySold := .val true (some 2),
    appliedPrice := .val true (some 50), pricePerUnit := .undef,
    paymentMethod := none, customer := none, date := none, saleType := none,
    notes := none }

/-- Claim C10: a bulk sale request with a line whose qty parses to the
negative integer -3 for item A (present, quantity 5) raises no
ValidationError: the operation succeeds, the stock check passes, and the
item's stored quantity is increased by 3 (5 - (-3) = 8) instead of
decreased. -/
theorem recordSale_bulk_negative_qty :
    reqC10.bulkItems.map (fun l => l.qty.jsParse) = [some (-3)] ∧
    itemA.qty = some 5 ∧
    (recordSale "1" "d" reqC10 storeA).2 = .ok "1" none ∧
    (recordSale "1" "d" reqC10 storeA).1.inventory.map (fun r => r.qty)
      = [some 8] := by
  decide

/-- Claim C6: calling markPaid twice on the same existing loan identifier
is idempotent: after the first successful call the loan's status is
"Paid" and its date-paid is set to the current date, and a second call on
the same date leaves the store unchanged (it re-writes the same values).
The current date is an explicit parameter, held fixed across the calls. -/
theorem markLoanAsPaid_idempotent
    (today lid : String) (st : Store) (j : Nat) (row : LoanRow)
    (h : findLoan st.loans lid = some (j, row)) :
    (markLoanAsPaid today lid st).2 = true ∧
    findLoan (markLoanAsPaid today lid st).1.loans lid
      = some (j, { row with status := "Paid", datePaid := today }) ∧
    markLoanAsPaid today lid (markLoanAsPaid today lid st).1
      = ((markLoanAsPaid today lid st).1, true) := by
  have h2 := findLoan_setLoanPaidAt st.loans lid today j row h
  refine ⟨by simp only [markLoanAsPaid, h], by simp only [markLoanAsPaid, h]; exact h2, ?_⟩
  simp only [markLoanAsPaid, h, h2]
  rw [setLoanPaidAt_idem]

def loanL : LoanRow :=
  { loanId := "LOAN-1", saleId := "1", customer := "C", itemName := "Pod X",
    amount := some 100, dateIssued := "d0", dueDate := "", status := "Unpaid",
    datePaid := "", notes := "" }

def storeL : Store :=
  { inventory := [], sales := [], loans := [loanL], warranty := [] }

/-- Witness for C6 at a concrete input: one unpaid loan marked paid twice
on the same date. -/
theorem markLoanAsPaid_idempotent_witness :
    (findLoan storeL.loans "LOAN-1" = some (0, loanL)) ∧
    ((markLoanAsPaid "20260102" "LOAN-1" storeL).2 = true ∧
     findLoan (markLoanAsPaid "20260102" "LOAN-1" storeL).1.loans "LOAN-1"
       = some (0, { loanL with status := "Paid", datePaid := "20260102" }) ∧
     markLoanAsPaid "20260102" "LOAN-1" (markLoanAsPaid "20260102" "LOAN-1" storeL).1
       = ((markLoanAsPaid "20260102" "LOAN-1" storeL).1, true)) :=
  ⟨by decide,
   markLoanAsPaid_idempotent "20260102" "LOAN-1" storeL 0 loanL (by decide)⟩

/-- Claim C9: for every warranty claim whose product is found: a requested
quantity exceeding the product's current quantity is rejected with
InsufficientStockError before any write (store unchanged); a requested
quantity at most the current quantity appends exactly one WarrantyClaim
record with status "Completed" and decreases the product's stored quantity
by exactly the requested quantity. -/
theorem processClaim_spec
    (cid : String) (c : ClaimReq) (st : Store) (j : Nat) (product : InvRow)
    (hfind : getItemById st.inventory c.itemId = some (j, product)) :
    (product.qty.getD 0 < c.quantity.jsParseOrZero →
       processClaim cid c st = (st, .err .insufficientStock)) ∧
    (c.quantity.jsParseOrZero ≤ product.qty.getD 0 →
       (processClaim cid c st).1.warranty = st.warranty ++
         [{ claimId := cid, date := c.date, productId := c.itemId,
            productName := product.itemName,
            quantity := c.quantity.jsParseOrZero, reason := c.reason,
            customer := jsStrOr c.customer "", notes := jsStrOr c.notes "",
            status := "Completed" }] ∧
       (processClaim cid c st).1.inventory
         = setQtyAt st.inventory j
             (some (product.qty.getD 0 - c.quantity.jsParseOrZero)) ∧
       (processClaim cid c st).2 = .ok cid) := by
  constructor
  · intro hlt
    simp only [processClaim, hfind]
    rw [if_pos hlt]
  · intro hle
    have hnlt : ¬ (product.qty.getD 0 < c.quantity.jsParseOrZero) := by omega
    simp only [processClaim, hfind, hnlt, if_false, ite_false]
    exact ⟨trivial,
      updateQuantity_eq_setQtyAt st.inventory c.itemId _ j product hfind,
      trivial⟩

def claimC9 : ClaimReq :=
  { itemId := "A", date := "d", quantity := .val true (some 2),
    reason := "defect", customer := none, notes := none }

/-- Witness for C9 at a concrete input: replacing 2 of item A (5 in
stock). -/
theorem processClaim_spec_witness :
    (getItemById storeA.inventory "A" = some (0, itemA) ∧ (2 : Int) ≤ 5) ∧
    ((processClaim "9" claimC9 storeA).1.warranty
       = storeA.warranty ++
         [{ claimId := "9", date := "d", productId := "A",
            productName := "Pod X", quantity := 2, reason := "defect",
            customer := "", notes := "", status := "Completed" }] ∧
     (processClaim "9" claimC9 storeA).1.inventory
       = setQtyAt storeA.inventory 0 (some 3) ∧
     (processClaim "9" claimC9 storeA).2 = .ok "9") :=
  ⟨⟨by decide, by decide⟩,
   (processClaim_spec "9" claimC9 storeA 0 itemA (by decide)).2 (by decide)⟩

theorem recordSaleBulk_inventory (nowId today : String) (sale : SaleReq)
    (st : Store) :
    (recordSaleBulk nowId today sale st).1.inventory
      = (bulkLoop sale.bulkItems st.inventory).1 := by
  simp only [recordSaleBulk, apply_ite Store.inventory, ite_self]

theorem recordSaleBulk_sales (nowId today : String) (sale : SaleReq)
    (st : Store) :
    (recordSaleBulk nowId today sale st).1.sales
      = st.sales ++ [bulkSaleRow nowId today sale] := by
  simp only [recordSaleBulk, apply_ite Store.sales, ite_self]

theorem recordSaleBulk_loans (nowId today : String) (sale : SaleReq)
    (st : Store) :
    (recordSaleBulk nowId today sale st).1.loans
      = st.loans ++
        (if sale.paymentMethod = some "Loan"
         then [bulkLoanRow nowId today sale] else []) := by
  simp only [recordSaleBulk, apply_ite Store.loans]
  split <;> simp

theorem markLoanAsPaid_inventory (today lid : String) (st : Store) :
    (markLoanAsPaid today lid st).1.inventory = st.inventory := by
  rw [markLoanAsPaid]
  split <;> rfl

theorem invNonNeg_updateQuantity (inv : List InvRow) (iid : String)
    (m : Int) (h : invNonNeg inv = true) (hm : 0 ≤ m) :
    invNonNeg (updateQuantity iid m inv) = true := by
  rw [updateQuantity]
  split
  · exact h
  · exact invNonNeg_setQtyAt _ _ _ h (by intro n hn; cases hn; exact hm)

theorem recordSaleSingle_invNonNeg (nowId today : String) (sale : SaleReq)
    (st : Store) (h : invNonNeg st.inventory = true) :
    invNonNeg (recordSaleSingle nowId today sale st).1.inventory = true := by
  rw [recordSaleSingle]
  by_cases h1 : jsStrOr sale.itemId "" = ""
  · simp only [h1, if_true]
    exact h
  · simp only [h1, if_false]
    cases hf : findInvRow st.inventory (sale.itemId.getD "") with
    | none =>
      simp only [hf]
      exact h
    | some p =>
      obtain ⟨j, itemRow⟩ := p
      simp only [hf]
      cases hq : sale.quantitySold.jsParse with
      | none =>
        simp only [hq]
        exact h
      | some n =>
        simp only [hq]
        by_cases h2 : n ≤ 0
        · simp only [h2, if_true]
          exact h
        · simp only [h2, if_false]
          by_cases h3 : jsGt (some n) itemRow.qty = true
          · simp only [h3, if_true]
            exact h
          · rw [Bool.not_eq_true] at h3
            simp only [h3, Bool.false_eq_true, if_false,
              apply_ite Store.inventory, ite_self]
            exact invNonNeg_setQtyAt _ _ _ h (jsSub_nonneg _ _ h3)

theorem processClaim_invNonNeg (cid : String) (c : ClaimReq) (st : Store)
    (h : invNonNeg st.inventory = true) :
    invNonNeg (processClaim cid c st).1.inventory = true := by
  rw [processClaim]
  cases hf : getItemById st.inventory c.itemId with
  | none =>
    simp only [hf]
    exact h
  | some p =>
    obtain ⟨j, product⟩ := p
    simp only [hf]
    by_cases hlt : product.qty.getD 0 < c.quantity.jsParseOrZero
    · simp only [hlt, if_true]
      exact h
    · simp only [hlt, if_false]
      exact invNonNeg_updateQuantity _ _ _ h (by omega)

/-- Claim C8: across single-item sales, bulk sales, and warranty claims
(and loan marking, which never writes inventory), a stored inventory
quantity never becomes negative: starting from a store whose quantities
are all non-negative, every operation leaves them all non-negative (the
offending write is rejected before it is issued). -/
theorem quantity_never_negative
    (nowId today lid cid : String) (sale : SaleReq) (c : ClaimReq)
    (st : Store) (h : invNonNeg st.inventory = true) :
    invNonNeg (recordSale nowId today sale st).1.inventory = true ∧
    invNonNeg (processClaim cid c st).1.inventory = true ∧
    invNonNeg (markLoanAsPaid today lid st).1.inventory = true := by
  refine ⟨?_, processClaim_invNonNeg cid c st h,
    by rw [markLoanAsPaid_inventory]; exact h⟩
  rw [recordSale]
  split
  · rw [recordSaleBulk_inventory]
    exact bulkLoop_invNonNeg _ _ h
  · exact recordSaleSingle_invNonNeg nowId today sale st h

/-- Witness for C8 at concrete inputs: all three operations on a store
with non-negative quantities. -/
theorem quantity_never_negative_witness :
    invNonNeg storeA.inventory = true ∧
    (invNonNeg (recordSale "11" "d" reqC1 storeA).1.inventory = true ∧
     invNonNeg (processClaim "12" claimC9 storeA).1.inventory = true ∧
     invNonNeg (markLoanAsPaid "d" "LOAN-1" storeA).1.inventory = true) :=
  ⟨by decide,
   quantity_never_negative "11" "d" "LOAN-1" "12" reqC1 claimC9 storeA
     (by decide)⟩

theorem markLoanAsPaid_sales (today lid : String) (st : Store) :
    (markLoanAsPaid today lid st).1.sales = st.sales := by
  rw [markLoanAsPaid]
  split <;> rfl

theorem processClaim_sales (cid : String) (c : ClaimReq) (st : Store) :
    (processClaim cid c st).1.sales = st.sales := by
  rw [processClaim]
  cases hf : getItemById st.inventory c.itemId with
  | none => rfl
  | some p =>
    obtain ⟨j, product⟩ := p
    by_cases hlt : product.qty.getD 0 < c.quantity.jsParseOrZero
    · simp only [hlt, if_true]
    · simp only [hlt, if_false]

theorem recordSaleSingle_sales_mem (nowId today : String) (sale : SaleReq)
    (st : Store) :
    ∀ sr ∈ (recordSaleSingle nowId today sale st).1.sales,
      sr ∈ st.sales ∨
      ∃ itemRow, sr = singleSaleRow nowId today sale itemRow := by
  intro sr hsr
  rw [recordSaleSingle] at hsr
  by_cases h1 : jsStrOr sale.itemId "" = ""
  · simp only [h1, if_true] at hsr
    exact Or.inl hsr
  · simp only [h1, if_false] at hsr
    cases hf : findInvRow st.inventory (sale.itemId.getD "") with
    | none =>
      simp only [hf] at hsr
      exact Or.inl hsr
    | some p =>
      obtain ⟨j, itemRow⟩ := p
      simp only [hf] at hsr
      cases hq : sale.quantitySold.jsParse with
      | none =>
        simp only [hq] at hsr
        exact Or.inl hsr
      | some n =>
        simp only [hq] at hsr
        by_cases h2 : n ≤ 0
        · simp only [h2, if_true] at hsr
          exact Or.inl hsr
        · simp only [h2, if_false] at hsr
          by_cases h3 : jsGt (some n) itemRow.qty = true
          · simp only [h3, if_true] at hsr
            exact Or.inl hsr
          · rw [Bool.not_eq_true] at h3
            simp only [h3, Bool.false_eq_true, if_false,
              apply_ite Store.sales, ite_self, List.mem_append,
              List.mem_singleton] at hsr
            rcases hsr with hsr | hsr
            · exact Or.inl hsr
            · exact Or.inr ⟨itemRow, hsr⟩

/-- Claim C4: every SaleRecord appended by recordSale (single-item or
bulk) has total equal to the applied unit price times the quantity sold,
rounded to 2 decimal places (with NaN propagating through an invalid bulk
quantity); no other operation writes or edits the Sales table. -/
theorem saleRecord_total_rounded
    (nowId today lid cid : String) (sale : SaleReq) (c : ClaimReq)
    (st : Store) :
    (∀ sr ∈ (recordSale nowId today sale st).1.sales,
        sr ∈ st.sales ∨
        sr.total = sr.quantitySold.map (fun n => round2 (sr.pricePerUnit * n))) ∧
    (markLoanAsPaid today lid st).1.sales = st.sales ∧
    (processClaim cid c st).1.sales = st.sales := by
  refine ⟨?_, markLoanAsPaid_sales today lid st, processClaim_sales cid c st⟩
  intro sr hsr
  rw [recordSale] at hsr
  by_cases hb : sale.bulkItems ≠ []
  · rw [if_pos hb, recordSaleBulk_sales] at hsr
    rcases List.mem_append.mp hsr with hsr | hsr
    · exact Or.inl hsr
    · rw [List.mem_singleton] at hsr
      subst hsr
      exact Or.inr rfl
  · rw [if_neg hb] at hsr
    rcases recordSaleSingle_sales_mem nowId today sale st sr hsr with hsr | ⟨itemRow, hsr⟩
    · exact Or.inl hsr
    · subst hsr
      exact Or.inr rfl

/-- Witness for C4 at a concrete input: the bulk sale row appended by a
concrete bulk request satisfies the total formula. -/
theorem saleRecord_total_rounded_witness :
    bulkSaleRow "41" "d" reqC2 ∈ (recordSale "41" "d" reqC2 storeA).1.sales ∧
    (bulkSaleRow "41" "d" reqC2 ∈ storeA.sales ∨
     (bulkSaleRow "41" "d" reqC2).total
       = (bulkSaleRow "41" "d" reqC2).quantitySold.map
           (fun n => round2 ((bulkSaleRow "41" "d" reqC2).pricePerUnit * n))) := by
  have hmem : bulkSaleRow "41" "d" reqC2 ∈ (recordSale "41" "d" reqC2 storeA).1.sales := by
    rw [recordSale, if_pos (by decide), recordSaleBulk_sales]
    simp
  exact ⟨hmem,
    (saleRecord_total_rounded "41" "d" "x" "y" reqC2 claimC9 storeA).1
      (bulkSaleRow "41" "d" reqC2) hmem⟩

theorem jsStrOr_pm_loan (pm : Option String) :
    (jsStrOr pm "Cash" = "Loan") ↔ pm = some "Loan" := by
  cases pm with
  | none => simp [jsStrOr]
  | some s =>
    simp only [jsStrOr, Option.some.injEq]
    by_cases hs : s = ""
    · subst hs
      simp
    · simp [hs]

theorem recordSaleSingle_ok_shape (nowId today : String) (sale : SaleReq)
    (st : Store) (sid : String) (nq : Option (Option Int))
    (hok : (recordSaleSingle nowId today sale st).2 = .ok sid nq) :
    ∃ itemRow,
      (recordSaleSingle nowId today sale st).1.sales
        = st.sales ++ [singleSaleRow nowId today sale itemRow] ∧
      (recordSaleSingle nowId today sale st).1.loans
        = st.loans ++
          (if jsStrOr sale.paymentMethod "Cash" = "Loan"
           then [singleLoanRow nowId today sale itemRow] else []) := by
  rw [recordSaleSingle] at hok ⊢
  by_cases h1 : jsStrOr sale.itemId "" = ""
  · simp only [h1, if_true] at hok
    exact absurd hok (by simp)
  · simp only [h1, if_false] at hok ⊢
    cases hf : findInvRow st.inventory (sale.itemId.getD "") with
    | none =>
      simp only [hf] at hok
      exact absurd hok (by simp)
    | some p =>
      obtain ⟨j, itemRow⟩ := p
      simp only [hf] at hok ⊢
      cases hq : sale.quantitySold.jsParse with
      | none =>
        simp only [hq] at hok
        exact absurd hok (by simp)
      | some n =>
        simp only [hq] at hok ⊢
        by_cases h2 : n ≤ 0
        · simp only [h2, if_true] at hok
          exact absurd hok (by simp)
        · simp only [h2, if_false] at hok ⊢
          by_cases h3 : jsGt (some n) itemRow.qty = true
          · simp only [h3, if_true] at hok
            exact absurd hok (by simp)
          · rw [Bool.not_eq_true] at h3
            simp only [h3, Bool.false_eq_true, if_false,
              apply_ite Store.sales, apply_ite Store.loans, ite_self]
            refine ⟨itemRow, rfl, ?_⟩
            split <;> simp

/-- Claim C3: for every sale (single-item or bulk) that completes its
record-append phase (the bulk branch always does; the single-item branch
does exactly when it succeeds), exactly one LoanRecord is appended if and
only if the payment method equals "Loan", that LoanRecord has amount
equal to the sale's computed total and status "Unpaid"; for any other
payment method no LoanRecord is appended. -/
theorem recordSale_loan_iff (nowId today : String) (sale : SaleReq)
    (st : Store)
    (h : sale.bulkItems ≠ [] ∨
         ∃ sid nq, (recordSale nowId today sale st).2 = .ok sid nq) :
    (jsStrOr sale.paymentMethod "Cash" = "Loan" →
       ∃ lr sr,
         (recordSale nowId today sale st).1.loans = st.loans ++ [lr] ∧
         (recordSale nowId today sale st).1.sales = st.sales ++ [sr] ∧
         lr.status = "Unpaid" ∧ lr.amount = sr.total) ∧
    (jsStrOr sale.paymentMethod "Cash" ≠ "Loan" →
       (recordSale nowId today sale st).1.loans = st.loans) := by
  by_cases hb : sale.bulkItems = []
  · have hok : ∃ sid nq, (recordSale nowId today sale st).2 = .ok sid nq := by
      rcases h with h | h
      · exact absurd hb h
      · exact h
    obtain ⟨sid, nq, hok⟩ := hok
    rw [recordSale, if_neg (by simp [hb])] at hok ⊢
    obtain ⟨itemRow, hsales, hloans⟩ :=
      recordSaleSingle_ok_shape nowId today sale st sid nq hok
    constructor
    · intro hpm
      refine ⟨singleLoanRow nowId today sale itemRow,
        singleSaleRow nowId today sale itemRow, ?_, hsales, rfl, rfl⟩
      rw [hloans, if_pos hpm]
    · intro hpm
      rw [hloans, if_neg hpm]
      simp
  · rw [recordSale, if_pos hb]
    constructor
    · intro hpm
      refine ⟨bulkLoanRow nowId today sale, bulkSaleRow nowId today sale,
        ?_, recordSaleBulk_sales nowId today sale st, rfl, rfl⟩
      rw [recordSaleBulk_loans, if_pos ((jsStrOr_pm_loan _).mp hpm)]
    · intro hpm
      rw [recordSaleBulk_loans,
        if_neg (fun hc => hpm ((jsStrOr_pm_loan _).mpr hc))]
      simp

def reqC3 : SaleReq :=
  { itemId := none,
    bulkItems := [{ itemId := "A", qty := .val true (some 2) }],
    quantitySold := .val true (some 2),
    appliedPrice := .val true (some 50), pricePerUnit := .undef,
    paymentMethod := some "Loan", customer := none, date := none,
    saleType := none, notes := none }

/-- Witness for C3 at a concrete input: a bulk Loan sale appends exactly
one Unpaid loan record. -/
theorem recordSale_loan_iff_witness :
    reqC3.bulkItems ≠ [] ∧
    jsStrOr reqC3.paymentMethod "Cash" = "Loan" ∧
    (recordSale "31" "d" reqC3 storeA).1.loans.map LoanRow.status
      = ["Unpaid"] := by
  obtain ⟨hl, -⟩ :=
    recordSale_loan_iff "31" "d" reqC3 storeA (Or.inl (by decide))
  obtain ⟨lr, sr, h1, h2, h3, h4⟩ := hl (by decide)
  refine ⟨by decide, by decide, ?_⟩
  rw [h1]
  simp [storeA, h3]

def reqC5 : SaleReq :=
  { itemId := some "A", bulkItems := [], quantitySold := .val true (some 1),
    appliedPrice := .val false (some 0), pricePerUnit := .val true (some 7),
    paymentMethod := none, customer := none, date := none, saleType := none,
    notes := none }

/-- Claim C5 counterexample: the request carries an explicit applied
price (the JS number 0, present but falsy) and an explicit price-per-unit
of 7; the claim's preference order would record 0, but the code records
7, because the JS fallback chain skips falsy values. -/
theorem appliedPrice_preference_counterexample :
    reqC5.appliedPrice = PriceField.val false (some 0) ∧
    reqC5.pricePerUnit = PriceField.val true (some 7) ∧
    (recordSale "1" "d" reqC5 storeA).1.sales.map SaleRow.pricePerUnit
      = [7] ∧
    (7 : ℚ) ≠ 0 := by
  decide

/-- Claim C5 (amended): for every successful single-item sale, the
applied unit price recorded in the SaleRecord is chosen by JS-truthiness
preference: the request's explicit applied price if truthy (present and
neither zero nor empty), else the request's explicit price-per-unit if
truthy, else the item's own unit price; a truthy but unparseable chosen
value contributes 0. -/
theorem recordSale_appliedPrice_selection
    (nowId today iid : String) (sale : SaleReq) (st : Store)
    (j : Nat) (itemRow : InvRow) (exQty n : Int)
    (hbulk : sale.bulkItems = [])
    (hid : sale.itemId = some iid) (hne : iid ≠ "")
    (hfind : findInvRow st.inventory iid = some (j, itemRow))
    (hqty : itemRow.qty = some exQty)
    (hsell : sale.quantitySold.jsParse = some n)
    (hpos : 0 < n) (hle : n ≤ exQty) :
    (recordSale nowId today sale st).1.sales
      = st.sales ++ [singleSaleRow nowId today sale itemRow] ∧
    (singleSaleRow nowId today sale itemRow).pricePerUnit
      = (if sale.appliedPrice.truthy = true
         then sale.appliedPrice.jsParseOrZero
         else if sale.pricePerUnit.truthy = true
         then sale.pricePerUnit.jsParseOrZero
         else itemRow.price) := by
  have hnpos : ¬ (n ≤ 0) := by omega
  have hngt : ¬ (n > exQty) := by omega
  constructor
  · simp only [recordSale, recordSaleSingle, hbulk, hid, Option.getD_some,
      hfind, hsell, hqty, jsGt_some_some, jsSub_some_some, jsStrOr, hne,
      ne_eq, not_true_eq_false, if_false, hnpos, decide_eq_true_eq, hngt,
      ite_self, apply_ite Store.sales, ite_false, ite_true,
      not_false_eq_true]
  · rfl

def reqC5w : SaleReq :=
  { itemId := some "A", bulkItems := [], quantitySold := .val true (some 1),
    appliedPrice := .val true (some 9), pricePerUnit := .val true (some 7),
    paymentMethod := none, customer := none, date := none, saleType := none,
    notes := none }

/-- Witness for the amended C5 at a concrete input: a truthy applied
price 9 wins over price-per-unit 7 and the item price 100. -/
theorem recordSale_appliedPrice_selection_witness :
    (reqC5w.bulkItems = [] ∧ reqC5w.itemId = some "A" ∧ "A" ≠ "" ∧
     findInvRow storeA.inventory "A" = some (0, itemA) ∧
     itemA.qty = some 5 ∧ reqC5w.quantitySold.jsParse = some 1 ∧
     (0 : Int) < 1 ∧ (1 : Int) ≤ 5) ∧
    ((recordSale "51" "d" reqC5w storeA).1.sales
       = storeA.sales ++ [singleSaleRow "51" "d" reqC5w itemA] ∧
     (singleSaleRow "51" "d" reqC5w itemA).pricePerUnit
       = (if reqC5w.appliedPrice.truthy = true
          then reqC5w.appliedPrice.jsParseOrZero
          else if reqC5w.pricePerUnit.truthy = true
          then reqC5w.pricePerUnit.jsParseOrZero
          else itemA.price)) :=
  ⟨by decide,
   recordSale_appliedPrice_selection "51" "d" "A" reqC5w storeA 0 itemA 5 1
     rfl rfl (by decide) (by decide) rfl rfl (by decide) (by decide)⟩

theorem recordSaleBulk_err (nowId today : String) (sale : SaleReq)
    (st : Store) (e : SaleErr)
    (he : (recordSaleBulk nowId today sale st).2 = .err e) :
    (bulkLoop sale.bulkItems st.inventory).2 = some e := by
  simp only [recordSaleBulk, apply_ite Store.inventory, ite_self] at he
  cases h2 : (bulkLoop sale.bulkItems st.inventory).2 with
  | none =>
    rw [h2] at he
    exact absurd he (by simp)
  | some e2 =>
    rw [h2] at he
    simp only [SaleOutcome.err.injEq] at he
    rw [he]

/-- Claim C7: for every bulk sale request, the single SaleRecord (and the
single LoanRecord when payment method is "Loan") is appended regardless
of how the inventory loop ends (so before any inventory write, with no
rollback); if a line's requested qty exceeds that item's current stock,
the loop aborts with InsufficientStockError, no quantity update is
written for that item, and the earlier lines' already-applied decrements
are retained. -/
theorem recordSale_bulk_order_and_abort (nowId today : String)
    (sale : SaleReq) (st : Store) (hbulk : sale.bulkItems ≠ []) :
    (recordSale nowId today sale st).1.sales
        = st.sales ++ [bulkSaleRow nowId today sale] ∧
    (recordSale nowId today sale st).1.loans
        = st.loans ++ (if sale.paymentMethod = some "Loan"
            then [bulkLoanRow nowId today sale] else []) ∧
    (∀ e, (recordSale nowId today sale st).2 = .err e →
      e = .insufficientStock ∧
      ∃ pre line rest j itemRow,
        sale.bulkItems = pre ++ line :: rest ∧
        bulkLoop pre st.inventory
          = ((recordSale nowId today sale st).1.inventory, none) ∧
        findInvRow (recordSale nowId today sale st).1.inventory line.itemId
          = some (j, itemRow) ∧
        jsGt line.qty.jsParse itemRow.qty = true) := by
  rw [recordSale, if_pos hbulk]
  refine ⟨recordSaleBulk_sales nowId today sale st,
    recordSaleBulk_loans nowId today sale st, ?_⟩
  intro e he
  have h2 := recordSaleBulk_err nowId today sale st e he
  have hpair : bulkLoop sale.bulkItems st.inventory
      = ((bulkLoop sale.bulkItems st.inventory).1, some e) := by
    rw [← h2]
  have hinv := recordSaleBulk_inventory nowId today sale st
  obtain ⟨he2, pre, line, rest, j, itemRow, hsplit, hpre, hfind, hgt⟩ :=
    bulkLoop_err_decomp sale.bulkItems st.inventory
      (bulkLoop sale.bulkItems st.inventory).1 e hpair
  exact ⟨he2, pre, line, rest, j, itemRow, hsplit,
    by rw [hinv]; exact hpre, by rw [hinv]; exact hfind, hgt⟩

def reqC7 : SaleReq :=
  { itemId := none,
    bulkItems := [{ itemId := "A", qty := .val true (some 3) },
                  { itemId := "A", qty := .val true (some 10) }],
    quantitySold := .val true (some 13),
    appliedPrice := .val true (some 50), pricePerUnit := .undef,
    paymentMethod := none, customer := none, date := none, saleType := none,
    notes := none }

/-- Witness for C7 at a concrete input: a two-line bulk request whose
second line exceeds the remaining stock; the sale row is still appended,
no loan row is appended (payment method Cash), and the first line's
decrement is retained. -/
theorem recordSale_bulk_order_and_abort_witness :
    reqC7.bulkItems ≠ [] ∧
    (recordSale "71" "d" reqC7 storeA).1.sales.length
      = storeA.sales.length + 1 ∧
    (recordSale "71" "d" reqC7 storeA).1.loans = storeA.loans ∧
    (recordSale "71" "d" reqC7 storeA).2 = .err .insufficientStock ∧
    (recordSale "71" "d" reqC7 storeA).1.inventory.map (fun r => r.qty)
      = [some 2] := by
  obtain ⟨h1, h2, h3⟩ :=
    recordSale_bulk_order_and_abort "71" "d" reqC7 storeA (by decide)
  refine ⟨by decide, ?_, ?_, by decide, by decide⟩
  · rw [h1]
    simp
  · rw [h2]
    simp [reqC7]
